import Mathlib

/-!
# Verification of the mark-detection and answer-resolution engine

Shallow embedding of the grading core of the ChackAnswer repository:

* `checkInkDensity` — from `src/services/imageProcessor.ts` (the module
  `App.tsx` imports), the Mark Density Evaluator.
* `resolveQuestion`, `gradeDetails`, `gradeSheet` — the per-question and
  per-sheet part of `handleStudentUpload` in `src/App.tsx` (Answer Resolver
  and Scorer).

Platform semantics (the HTML canvas `getImageData`) are modelled after the
HTML specification: arguments are converted to integers by truncation toward
zero, a zero source width or height raises `IndexSizeError` (modelled as
`none`, which the evaluator's catch-branch turns into density `0`), negative
width/height flip the source rectangle, and pixels outside the canvas bitmap
read as transparent black `(0,0,0,0)`.

Numbers are modelled as exact rationals (`ℚ`); canvas pixel channels are
naturals on the `0–255` scale.  The `string | null` student answer of the
source is modelled as `Option String` with `none` for `null`.
-/

/-- One RGBA pixel of a decoded raster, channels on the 0-255 scale. -/
structure Pixel where
  r : ℕ
  g : ℕ
  b : ℕ
  a : ℕ
deriving DecidableEq

/-- A decoded raster image: dimensions plus a pixel lookup for in-bounds
coordinates. -/
structure Image where
  width : ℕ
  height : ℕ
  px : ℕ → ℕ → Pixel

/-- Reading one source pixel for `getImageData`: coordinates outside the
canvas bitmap read as transparent black, per the HTML specification. -/
def samplePixel (img : Image) (X Y : Int) : Pixel :=
  if 0 ≤ X ∧ X < (img.width : Int) ∧ 0 ≤ Y ∧ Y < (img.height : Int) then
    img.px X.toNat Y.toNat
  else
    ⟨0, 0, 0, 0⟩

/-- Flattening one pixel into the RGBA byte stream of an `ImageData`. -/
def pixToList (p : Pixel) : List ℕ := [p.r, p.g, p.b, p.a]

/-- The result of `ctx.getImageData`: dimensions plus the flat row-major
RGBA data array. -/
structure ImageData where
  width : ℕ
  height : ℕ
  data : List ℕ
deriving DecidableEq

/-- JavaScript number-to-integer conversion used for the `long` arguments of
`getImageData`: truncation toward zero. -/
def jsTrunc (q : ℚ) : Int :=
  if 0 ≤ q then ⌊q⌋ else ⌈q⌉

/-- `ctx.getImageData sx sy sw sh`, per the HTML specification: a zero
source width or height throws `IndexSizeError` (modelled as `none`);
negative width or height flip the source rectangle; out-of-bounds pixels
are transparent black. -/
def getImageData (img : Image) (sx sy sw sh : Int) : Option ImageData :=
  if sw = 0 ∨ sh = 0 then
    none
  else
    let sx2 : Int := if sw < 0 then sx + sw else sx
    let sy2 : Int := if sh < 0 then sy + sh else sy
    let W : ℕ := sw.natAbs
    let H : ℕ := sh.natAbs
    some ⟨W, H,
      (List.range H).flatMap fun j =>
        (List.range W).flatMap fun i =>
          pixToList (samplePixel img (sx2 + (i : Int)) (sy2 + (j : Int)))⟩

/-- Pixel brightness as computed by `checkInkDensity`: the unweighted mean
of the red, green and blue channels. -/
def brightness (r g b : ℕ) : ℚ := ((r : ℚ) + (g : ℚ) + (b : ℚ)) / 3

/-- The dark-pixel counting loop of `checkInkDensity`: walk the flat RGBA
data in steps of 4, counting pixels whose brightness is below 160.  The
alpha byte (fourth of each group) is skipped. -/
def countDark : List ℕ → ℕ
  | r :: g :: b :: _ :: rest => (if brightness r g b < 160 then 1 else 0) + countDark rest
  | _ => 0

/-- One candidate answer-option rectangle (`BoxCoordinate` in
`src/types.ts`): geometry in percent of the image dimensions, plus the
question number and option label. -/
structure BoxCoordinate where
  id : String
  x : ℚ
  y : ℚ
  w : ℚ
  h : ℚ
  questionNumber : ℕ
  optionLabel : String
deriving DecidableEq

/-- The try/catch body of `checkInkDensity`: a thrown `getImageData`
(`none`) is caught and yields `0`; otherwise the dark pixels of the returned
data array are counted and divided by the real-valued window area
`w*0.6 * h*0.6`. -/
def densityOfData (box : BoxCoordinate) (cw ch : ℚ) : Option ImageData → ℚ
  | none => 0
  | some d =>
      (countDark d.data : ℚ) / (box.w / 100 * cw * (6/10) * (box.h / 100 * ch * (6/10)))

/-- `checkInkDensity` from `src/services/imageProcessor.ts`: convert the
box's percentage geometry to pixels, sample the central 60% window via
`getImageData`, count dark pixels (brightness below 160) over the flat RGBA
array, and divide by the real-valued window area `w*0.6 * h*0.6`.  Any
exception from `getImageData` is caught and yields `0`. -/
def checkInkDensity (img : Image) (box : BoxCoordinate) (cw ch : ℚ) : ℚ :=
  let x : ℚ := box.x / 100 * cw
  let y : ℚ := box.y / 100 * ch
  let w : ℚ := box.w / 100 * cw
  let h : ℚ := box.h / 100 * ch
  densityOfData box cw ch
    (getImageData img (jsTrunc (x + w * (2/10))) (jsTrunc (y + h * (2/10)))
      (jsTrunc (w * (6/10))) (jsTrunc (h * (6/10))))

/-- The per-question mark list built by `handleStudentUpload`
(`studentAnswers[q]`): the option labels of the question's boxes whose
ink density strictly exceeds the 0.08 mark-presence threshold, in catalog
order. -/
def marksFor (img : Image) (boxes : List BoxCoordinate) (cw ch : ℚ) (q : ℕ) : List String :=
  (boxes.filter fun b =>
      decide (b.questionNumber = q ∧ (8/100 : ℚ) < checkInkDensity img b cw ch)).map
    fun b => b.optionLabel

/-- The resolution step of `handleStudentUpload` on one question's mark
list: `studentAns = marks.length === 1 ? marks[0].label : null` and
`isWarning = marks.length > 1`.  `none` models the source's `null`. -/
def resolveMarks (marks : List String) : Option String × Bool :=
  (match marks with
    | [l] => some l
    | _ => none,
   decide (1 < marks.length))

/-- The per-question step of `handleStudentUpload`: threshold the densities
of the question's boxes, then resolve the resulting mark list. -/
def resolveQuestion (img : Image) (boxes : List BoxCoordinate) (cw ch : ℚ) (q : ℕ) :
    Option String × Bool :=
  resolveMarks (marksFor img boxes cw ch q)

/-- One per-question detail record of a `GradingResult`
(`src/types.ts`): `studentAnswer` is `Option String`, with `none` for the
source's `null`. -/
structure Detail where
  question : ℕ
  studentAnswer : Option String
  correctAnswer : String
  isCorrect : Bool
  isWarning : Bool
deriving DecidableEq

/-- The detail-list construction of `handleStudentUpload`: one record per
entry of `correctAnswers` (here the `Object.entries` list of the
`Record<number,string>`, whose integer-like keys JavaScript enumerates in
ascending numeric order), with `isCorrect = (studentAns === correctStr)` —
`null === string` is `false`. -/
def gradeDetails (img : Image) (boxes : List BoxCoordinate)
    (correctAnswers : List (ℕ × String)) (cw ch : ℚ) : List Detail :=
  correctAnswers.map fun qc =>
    let r := resolveQuestion img boxes cw ch qc.1
    ⟨qc.1, r.1, qc.2, decide (r.1 = some qc.2), r.2⟩

/-- The per-sheet grading report (`GradingResult` in `src/types.ts`). -/
structure GradingResult where
  studentId : String
  score : ℕ
  total : ℕ
  details : List Detail
  timestamp : ℕ
deriving DecidableEq

/-- The per-sheet part of `handleStudentUpload`: build the detail list from
the correct-answer entries, then `score = details.filter(d => d.isCorrect).length`
and `total = details.length`.  The random student id and the timestamp are
ambient values, taken here as parameters. -/
def gradeSheet (studentId : String) (img : Image) (boxes : List BoxCoordinate)
    (correctAnswers : List (ℕ × String)) (cw ch : ℚ) (timestamp : ℕ) : GradingResult :=
  let details := gradeDetails img boxes correctAnswers cw ch
  ⟨studentId, (details.filter fun d => d.isCorrect).length, details.length, details, timestamp⟩

/-- The dark-pixel predicate of the specification: brightness (unweighted
mean of red, green, blue; alpha ignored) strictly below the 160 cutoff. -/
def darkPix (p : Pixel) : Prop := brightness p.r p.g p.b < 160

instance : DecidablePred darkPix := fun p => by
  unfold darkPix
  infer_instance

/-- Per-pixel dark count of a `W × H` sampling window anchored at
`(sx, sy)`: for each window coordinate, test the sampled source pixel with
`darkPix`. -/
def specDarkCount (img : Image) (sx sy : Int) (W H : ℕ) : ℕ :=
  ((List.range H).map fun (j : ℕ) =>
    (List.range W).countP fun (i : ℕ) =>
      decide (darkPix (samplePixel img (sx + (i : Int)) (sy + (j : Int))))).sum

/-- Modelled from the spec (§4.1, claim C7): a Mark Density Evaluator that
clamps the inset sampling window to the image bounds and returns `0` when
the clamped window has non-positive area.  This definition follows the
spec's words; it exists only to be compared with `checkInkDensity`. -/
def checkInkDensityClamped (img : Image) (box : BoxCoordinate) (cw ch : ℚ) : ℚ :=
  let x : ℚ := box.x / 100 * cw
  let y : ℚ := box.y / 100 * ch
  let w : ℚ := box.w / 100 * cw
  let h : ℚ := box.h / 100 * ch
  let sx : Int := jsTrunc (x + w * (2/10))
  let sy : Int := jsTrunc (y + h * (2/10))
  let sw : Int := jsTrunc (w * (6/10))
  let sh : Int := jsTrunc (h * (6/10))
  let cx : Int := max sx 0
  let cy : Int := max sy 0
  let ex : Int := min (sx + sw) (img.width : Int)
  let ey : Int := min (sy + sh) (img.height : Int)
  if ex ≤ cx ∨ ey ≤ cy then 0
  else
    ((specDarkCount img cx cy (ex - cx).natAbs (ey - cy).natAbs : ℚ)) /
      (((ex - cx : Int) : ℚ) * ((ey - cy : Int) : ℚ))

/-- Nat-only form of `specDarkCount`, used to evaluate concrete instances:
the brightness test `(r+g+b)/3 < 160` over `ℚ` is equivalent to
`r+g+b < 480` over `ℕ`. -/
def specDarkCountN (img : Image) (sx sy : Int) (W H : ℕ) : ℕ :=
  ((List.range H).map fun (j : ℕ) =>
    (List.range W).countP fun (i : ℕ) =>
      decide ((samplePixel img (sx + (i : Int)) (sy + (j : Int))).r
        + (samplePixel img (sx + (i : Int)) (sy + (j : Int))).g
        + (samplePixel img (sx + (i : Int)) (sy + (j : Int))).b < 480)).sum

/-- Concrete all-white 5×5 raster used to exercise the theorems. -/
def white5 : Image := ⟨5, 5, fun _ _ => ⟨255, 255, 255, 255⟩⟩

/-- Concrete all-black 5×5 raster used to exercise the theorems. -/
def black5 : Image := ⟨5, 5, fun _ _ => ⟨0, 0, 0, 255⟩⟩

/-- Concrete all-white 10×10 raster used to exercise the theorems. -/
def white10 : Image := ⟨10, 10, fun _ _ => ⟨255, 255, 255, 255⟩⟩

/-- A full-sheet option box for question 1, label `A`. -/
def boxQ1A : BoxCoordinate := ⟨"box-0", 0, 0, 100, 100, 1, "A"⟩

/-- A full-sheet option box for question 1, label `B`. -/
def boxQ1B : BoxCoordinate := ⟨"box-1", 0, 0, 100, 100, 1, "B"⟩

/-- A box protruding past the right edge of the raster: anchored at 50% with
100% width. -/
def protrudingBox : BoxCoordinate := ⟨"box-2", 50, 0, 100, 100, 1, "A"⟩

/-- A box so small that its inset window truncates to zero pixels. -/
def tinyBox : BoxCoordinate := ⟨"box-3", 0, 0, 1, 1, 1, "A"⟩

/-- A box with zero width: a degenerate, zero-area region. -/
def zeroBox : BoxCoordinate := ⟨"box-4", 0, 0, 0, 100, 1, "A"⟩

theorem brightness_lt_iff (r g b : ℕ) : brightness r g b < 160 ↔ r + g + b < 480 := by
  rw [brightness, div_lt_iff₀ (by norm_num : (0:ℚ) < 3)]
  norm_num
  constructor
  · intro h
    exact_mod_cast h
  · intro h
    exact_mod_cast h

theorem darkPix_iff (p : Pixel) : darkPix p ↔ p.r + p.g + p.b < 480 := by
  rw [darkPix]
  exact brightness_lt_iff p.r p.g p.b

theorem specDarkCount_eq_N (img : Image) (sx sy : Int) (W H : ℕ) :
    specDarkCount img sx sy W H = specDarkCountN img sx sy W H := by
  unfold specDarkCount specDarkCountN
  congr 1
  apply List.map_congr_left
  intro j _
  apply List.countP_congr
  intro i _
  simp [darkPix_iff]

theorem countDark_pixToList_append (p : Pixel) (l : List ℕ) :
    countDark (pixToList p ++ l) = (if darkPix p then 1 else 0) + countDark l := by
  simp only [pixToList, List.cons_append, List.nil_append, countDark, darkPix]
  rfl

theorem countDark_row (f : ℕ → Pixel) (L : List ℕ) (rest : List ℕ) :
    countDark ((L.flatMap fun i => pixToList (f i)) ++ rest)
      = L.countP (fun i => decide (darkPix (f i))) + countDark rest := by
  induction L with
  | nil => simp
  | cons a t ih =>
    rw [List.flatMap_cons, List.append_assoc, countDark_pixToList_append, ih,
      List.countP_cons]
    by_cases h : darkPix (f a) <;> simp [h] <;> omega

theorem countDark_grid (g : ℕ → ℕ → Pixel) (W : ℕ) (R : List ℕ) (rest : List ℕ) :
    countDark ((R.flatMap fun j => (List.range W).flatMap fun i => pixToList (g i j)) ++ rest)
      = ((R.map fun j => (List.range W).countP fun i => decide (darkPix (g i j))).sum
          + countDark rest) := by
  induction R with
  | nil => simp
  | cons j t ih =>
    rw [List.flatMap_cons, List.append_assoc, countDark_row, ih, List.map_cons,
      List.sum_cons]
    omega

theorem countDark_getImageData (img : Image) (sx sy sw sh : Int) (d : ImageData)
    (hsw : 0 ≤ sw) (hsh : 0 ≤ sh)
    (hd : getImageData img sx sy sw sh = some d) :
    countDark d.data = specDarkCount img sx sy sw.natAbs sh.natAbs := by
  unfold getImageData at hd
  by_cases hz : sw = 0 ∨ sh = 0
  · simp [hz] at hd
  · simp only [hz, if_false] at hd
    have hswlt : ¬ sw < 0 := not_lt.mpr hsw
    have hshlt : ¬ sh < 0 := not_lt.mpr hsh
    simp only [hswlt, hshlt, if_false] at hd
    cases hd
    unfold specDarkCount
    have h := countDark_grid (fun i j => samplePixel img (sx + (i : Int)) (sy + (j : Int)))
      sw.natAbs (List.range sh.natAbs) []
    have h0 : countDark ([] : List ℕ) = 0 := rfl
    rw [List.append_nil, h0, Nat.add_zero] at h
    exact h

theorem getImageData_eq_none_iff (img : Image) (sx sy sw sh : Int) :
    getImageData img sx sy sw sh = none ↔ sw = 0 ∨ sh = 0 := by
  unfold getImageData
  by_cases h : sw = 0 ∨ sh = 0 
  · simp [h]
  · simp [h]

/-- The evaluator returns `0` whenever the truncated inset window has zero
width or height (the `getImageData` call throws and the catch-branch fires). -/
theorem checkInkDensity_fail (img : Image) (box : BoxCoordinate) (cw ch : ℚ)
    (h : jsTrunc (box.w / 100 * cw * (6/10)) = 0 ∨ jsTrunc (box.h / 100 * ch * (6/10)) = 0) :
    checkInkDensity img box cw ch = 0 := by
  simp only [checkInkDensity]
  rw [(getImageData_eq_none_iff img _ _ _ _).mpr h]
  rfl

/-- Valid-window characterization of `checkInkDensity`: when the truncated
inset window is nonempty, the density is the per-pixel dark count of the
window divided by the real-valued window area. -/
theorem checkInkDensity_eval (img : Image) (box : BoxCoordinate) (cw ch : ℚ)
    (sx sy sw sh : Int)
    (h1 : jsTrunc (box.x / 100 * cw + box.w / 100 * cw * (2/10)) = sx)
    (h2 : jsTrunc (box.y / 100 * ch + box.h / 100 * ch * (2/10)) = sy)
    (h3 : jsTrunc (box.w / 100 * cw * (6/10)) = sw)
    (h4 : jsTrunc (box.h / 100 * ch * (6/10)) = sh)
    (hsw : sw ≠ 0) (hsh : sh ≠ 0) (hsw0 : 0 ≤ sw) (hsh0 : 0 ≤ sh) :
    checkInkDensity img box cw ch =
      (specDarkCount img sx sy sw.natAbs sh.natAbs : ℚ) /
        (box.w / 100 * cw * (6/10) * (box.h / 100 * ch * (6/10))) := by
  simp only [checkInkDensity]
  rw [h1, h2, h3, h4]
  cases heq : getImageData img sx sy sw sh with
  | none =>
    rcases (getImageData_eq_none_iff img sx sy sw sh).mp heq with h | h
    · exact absurd h hsw
    · exact absurd h hsh
  | some d =>
    simp only [densityOfData]
    rw [countDark_getImageData img sx sy sw sh d hsw0 hsh0 heq]

theorem specDarkCount_le (img : Image) (sx sy : Int) (W H : ℕ) :
    specDarkCount img sx sy W H ≤ H * W := by
  unfold specDarkCount
  have h := List.sum_le_card_nsmul
    ((List.range H).map fun (j : ℕ) =>
      (List.range W).countP fun (i : ℕ) =>
        decide (darkPix (samplePixel img (sx + (i : Int)) (sy + (j : Int))))) W ?_
  · simpa using h
  · intro x hx
    rw [List.mem_map] at hx
    obtain ⟨j, _, rfl⟩ := hx
    calc (List.range W).countP _ ≤ (List.range W).length := List.countP_le_length _
    _ = W := List.length_range W

theorem jsTrunc_nonneg_of (q : ℚ) (h : 0 ≤ q) : 0 ≤ jsTrunc q := by
  rw [jsTrunc, if_pos h]
  exact Int.le_floor.mpr (by exact_mod_cast h)

theorem one_le_of_jsTrunc_pos (q : ℚ) (h : 0 ≤ q) (hne : jsTrunc q ≠ 0) : (1:ℚ) ≤ q := by
  have h0 : 0 ≤ jsTrunc q := jsTrunc_nonneg_of q h
  have h1 : (1:ℤ) ≤ jsTrunc q := lt_of_le_of_ne h0 (Ne.symm hne)
  rw [jsTrunc, if_pos h] at h1
  calc (1:ℚ) = ((1:ℤ) : ℚ) := by norm_num
  _ ≤ ((⌊q⌋ : ℤ) : ℚ) := by exact_mod_cast h1
  _ ≤ q := Int.floor_le q

theorem natAbs_jsTrunc_le (q : ℚ) (h : 0 ≤ q) : (((jsTrunc q).natAbs : ℕ) : ℚ) ≤ q := by
  have h0 : 0 ≤ jsTrunc q := jsTrunc_nonneg_of q h
  have h2 : (((jsTrunc q).natAbs : ℕ) : ℚ) = ((jsTrunc q : ℤ) : ℚ) := by
    rw [Int.cast_natAbs]
    exact_mod_cast abs_of_nonneg h0
  rw [h2, jsTrunc, if_pos h]
  exact Int.floor_le q

/-- C2: for every image and every region of the data model (nonnegative
percentage geometry, nonnegative raster dimensions), `checkInkDensity`
returns a rational in the closed interval `[0,1]`.  Degenerate zero-area
regions fall into the `getImageData`-throws branch and return `0`; the
result is a total rational-valued function, so no `NaN` can arise. -/
theorem checkInkDensity_in_unit_interval (img : Image) (box : BoxCoordinate) (cw ch : ℚ)
    (hw : 0 ≤ box.w) (hh : 0 ≤ box.h) (hcw : 0 ≤ cw) (hch : 0 ≤ ch) :
    0 ≤ checkInkDensity img box cw ch ∧ checkInkDensity img box cw ch ≤ 1 := by
  have hw6 : (0:ℚ) ≤ box.w / 100 * cw * (6/10) := by positivity
  have hh6 : (0:ℚ) ≤ box.h / 100 * ch * (6/10) := by positivity
  by_cases hz : jsTrunc (box.w / 100 * cw * (6/10)) = 0 ∨ jsTrunc (box.h / 100 * ch * (6/10)) = 0
  · rw [checkInkDensity_fail img box cw ch hz]
    norm_num
  · push_neg at hz
    obtain ⟨hsw, hsh⟩ := hz
    have hsw0 : 0 ≤ jsTrunc (box.w / 100 * cw * (6/10)) := jsTrunc_nonneg_of _ hw6
    have hsh0 : 0 ≤ jsTrunc (box.h / 100 * ch * (6/10)) := jsTrunc_nonneg_of _ hh6
    have key := checkInkDensity_eval img box cw ch _ _ _ _ rfl rfl rfl rfl hsw hsh hsw0 hsh0
    rw [key]
    have hwpos : (1:ℚ) ≤ box.w / 100 * cw * (6/10) := one_le_of_jsTrunc_pos _ hw6 hsw
    have hhpos : (1:ℚ) ≤ box.h / 100 * ch * (6/10) := one_le_of_jsTrunc_pos _ hh6 hsh
    have hden : (0:ℚ) < box.w / 100 * cw * (6/10) * (box.h / 100 * ch * (6/10)) := by
      have := mul_le_mul hwpos hhpos (by norm_num) (le_trans (by norm_num) hwpos)
      linarith
    constructor
    · positivity
    · rw [div_le_one hden]
      have hcount := specDarkCount_le img
        (jsTrunc (box.x / 100 * cw + box.w / 100 * cw * (2/10)))
        (jsTrunc (box.y / 100 * ch + box.h / 100 * ch * (2/10)))
        (jsTrunc (box.w / 100 * cw * (6/10))).natAbs
        (jsTrunc (box.h / 100 * ch * (6/10))).natAbs
      have hcast : ((jsTrunc (box.w / 100 * cw * (6/10))).natAbs : ℚ) ≤ box.w / 100 * cw * (6/10) :=
        natAbs_jsTrunc_le _ hw6
      have hcast2 : ((jsTrunc (box.h / 100 * ch * (6/10))).natAbs : ℚ) ≤ box.h / 100 * ch * (6/10) :=
        natAbs_jsTrunc_le _ hh6
      calc (specDarkCount img _ _ _ _ : ℚ)
          ≤ (((jsTrunc (box.h / 100 * ch * (6/10))).natAbs
              * (jsTrunc (box.w / 100 * cw * (6/10))).natAbs : ℕ) : ℚ) := by exact_mod_cast hcount
        _ = ((jsTrunc (box.h / 100 * ch * (6/10))).natAbs : ℚ)
              * ((jsTrunc (box.w / 100 * cw * (6/10))).natAbs : ℚ) := by push_cast; ring
        _ ≤ (box.h / 100 * ch * (6/10)) * (box.w / 100 * cw * (6/10)) := by
            apply mul_le_mul hcast2 hcast (by positivity)
            linarith
        _ = box.w / 100 * cw * (6/10) * (box.h / 100 * ch * (6/10)) := by ring

/-- C5: for every image and every data-model region whose truncated inset
window is nonempty, `checkInkDensity` equals the number of sampled pixels
classified dark — `darkPix`, i.e. unweighted mean of red, green and blue
(alpha ignored) strictly below the cutoff 160 — divided by the real-valued
sampled area `w*0.6 * h*0.6`; the cutoff 160 lies in the claimed 160–170
range. -/
theorem checkInkDensity_dark_count_formula :
    ((160:ℚ) ≤ 160 ∧ (160:ℚ) ≤ 170) ∧
    ∀ (img : Image) (box : BoxCoordinate) (cw ch : ℚ),
      0 ≤ box.w → 0 ≤ box.h → 0 ≤ cw → 0 ≤ ch →
      jsTrunc (box.w / 100 * cw * (6/10)) ≠ 0 →
      jsTrunc (box.h / 100 * ch * (6/10)) ≠ 0 →
      checkInkDensity img box cw ch =
        ((specDarkCount img (jsTrunc (box.x / 100 * cw + box.w / 100 * cw * (2/10)))
            (jsTrunc (box.y / 100 * ch + box.h / 100 * ch * (2/10)))
            (jsTrunc (box.w / 100 * cw * (6/10))).natAbs
            (jsTrunc (box.h / 100 * ch * (6/10))).natAbs : ℕ) : ℚ)
          / (box.w / 100 * cw * (6/10) * (box.h / 100 * ch * (6/10))) := by
  refine ⟨⟨by norm_num, by norm_num⟩, ?_⟩
  intro img box cw ch hw hh hcw hch hsw hsh
  exact checkInkDensity_eval img box cw ch _ _ _ _ rfl rfl rfl rfl hsw hsh
    (jsTrunc_nonneg_of _ (by positivity)) (jsTrunc_nonneg_of _ (by positivity))

/-- Witness for C5: the white 5×5 raster with a full-sheet box; the window
is the central 3×3, its dark count is 0, and the density is 0/9. -/
theorem checkInkDensity_dark_count_formula_witness :
    (0:ℚ) ≤ boxQ1A.w ∧ (0:ℚ) ≤ boxQ1A.h ∧ (0:ℚ) ≤ (5:ℚ) ∧
    jsTrunc (boxQ1A.w / 100 * 5 * (6/10)) ≠ 0 ∧
    jsTrunc (boxQ1A.h / 100 * 5 * (6/10)) ≠ 0 ∧
    checkInkDensity white5 boxQ1A 5 5 =
      ((specDarkCount white5 (jsTrunc (boxQ1A.x / 100 * 5 + boxQ1A.w / 100 * 5 * (2/10)))
          (jsTrunc (boxQ1A.y / 100 * 5 + boxQ1A.h / 100 * 5 * (2/10)))
          (jsTrunc (boxQ1A.w / 100 * 5 * (6/10))).natAbs
          (jsTrunc (boxQ1A.h / 100 * 5 * (6/10))).natAbs : ℕ) : ℚ)
        / (boxQ1A.w / 100 * 5 * (6/10) * (boxQ1A.h / 100 * 5 * (6/10))) := by
  refine ⟨by norm_num [boxQ1A], by norm_num [boxQ1A], by norm_num,
    by norm_num [jsTrunc, boxQ1A], by norm_num [jsTrunc, boxQ1A], ?_⟩
  exact checkInkDensity_dark_count_formula.2 white5 boxQ1A 5 5
    (by norm_num [boxQ1A]) (by norm_num [boxQ1A]) (by norm_num) (by norm_num)
    (by norm_num [jsTrunc, boxQ1A]) (by norm_num [jsTrunc, boxQ1A])

/-- C6: if the pixel access (`getImageData`) performed by the evaluation
fails, `checkInkDensity` returns `0`.  The evaluator is a total function
into `ℚ` — in the model no exception can escape it, mirroring the
try/catch of the source. -/
theorem checkInkDensity_zero_on_pixel_access_failure (img : Image) (box : BoxCoordinate)
    (cw ch : ℚ)
    (hfail : getImageData img (jsTrunc (box.x / 100 * cw + box.w / 100 * cw * (2/10)))
      (jsTrunc (box.y / 100 * ch + box.h / 100 * ch * (2/10)))
      (jsTrunc (box.w / 100 * cw * (6/10))) (jsTrunc (box.h / 100 * ch * (6/10))) = none) :
    checkInkDensity img box cw ch = 0 :=
  checkInkDensity_fail img box cw ch ((getImageData_eq_none_iff _ _ _ _ _).mp hfail)

/-- Witness for C6: a 1%×1% box on a 5×5 raster; the inset window truncates
to zero pixels, `getImageData` throws, and the density is 0. -/
theorem checkInkDensity_zero_on_pixel_access_failure_witness :
    getImageData white5 (jsTrunc (tinyBox.x / 100 * 5 + tinyBox.w / 100 * 5 * (2/10)))
      (jsTrunc (tinyBox.y / 100 * 5 + tinyBox.h / 100 * 5 * (2/10)))
      (jsTrunc (tinyBox.w / 100 * 5 * (6/10))) (jsTrunc (tinyBox.h / 100 * 5 * (6/10))) = none
    ∧ checkInkDensity white5 tinyBox 5 5 = 0 := by
  have hfail : getImageData white5 (jsTrunc (tinyBox.x / 100 * 5 + tinyBox.w / 100 * 5 * (2/10)))
      (jsTrunc (tinyBox.y / 100 * 5 + tinyBox.h / 100 * 5 * (2/10)))
      (jsTrunc (tinyBox.w / 100 * 5 * (6/10))) (jsTrunc (tinyBox.h / 100 * 5 * (6/10))) = none :=
    (getImageData_eq_none_iff _ _ _ _ _).mpr (Or.inl (by norm_num [jsTrunc, tinyBox]))
  exact ⟨hfail, checkInkDensity_zero_on_pixel_access_failure white5 tinyBox 5 5 hfail⟩

/-- Counterexample for C7: `checkInkDensity` does NOT clamp the sampled
window to the image bounds.  `protrudingBox` (anchored at 50% with 100%
width) on the all-white 10×10 raster samples the 6×6 window at (7,2);
columns 10–12 lie outside the raster and read as transparent black, which
counts as dark, so the density is 18/36 = 1/2 — even though every in-bounds
pixel is white.  The spec-modelled clamped evaluator
`checkInkDensityClamped` returns 0 on the same input, so the two differ. -/
theorem checkInkDensity_does_not_clamp :
    checkInkDensity white10 protrudingBox 10 10 = 1/2 ∧
    checkInkDensityClamped white10 protrudingBox 10 10 = 0 := by
  constructor
  · have key := checkInkDensity_eval white10 protrudingBox 10 10 7 2 6 6
      (by norm_num [jsTrunc, protrudingBox]) (by norm_num [jsTrunc, protrudingBox])
      (by norm_num [jsTrunc, protrudingBox]) (by norm_num [jsTrunc, protrudingBox])
      (by norm_num) (by norm_num) (by norm_num) (by norm_num)
    rw [key]
    have hc : specDarkCount white10 7 2 (6:ℤ).natAbs (6:ℤ).natAbs = 18 := by
      rw [specDarkCount_eq_N]
      decide
    rw [hc]
    norm_num [protrudingBox]
  · simp only [checkInkDensityClamped]
    norm_num [jsTrunc, protrudingBox, white10]
    rw [specDarkCount_eq_N]
    decide

/-- C7 (amended): the evaluator does not clamp the window
(`checkInkDensity_does_not_clamp`), but the second half of the claim holds —
whenever the inset sampling window of a data-model region has non-positive
area, `checkInkDensity` returns `0` instead of failing: the truncated
window is empty, `getImageData` throws, and the catch-branch yields `0`. -/
theorem checkInkDensity_zero_on_nonpositive_area (img : Image) (box : BoxCoordinate)
    (cw ch : ℚ) (hw : 0 ≤ box.w) (hh : 0 ≤ box.h) (hcw : 0 ≤ cw) (hch : 0 ≤ ch)
    (harea : box.w / 100 * cw * (6/10) * (box.h / 100 * ch * (6/10)) ≤ 0) :
    checkInkDensity img box cw ch = 0 := by
  have hw6 : (0:ℚ) ≤ box.w / 100 * cw * (6/10) := by positivity
  have hh6 : (0:ℚ) ≤ box.h / 100 * ch * (6/10) := by positivity
  have hzero : box.w / 100 * cw * (6/10) = 0 ∨ box.h / 100 * ch * (6/10) = 0 :=
    mul_eq_zero.mp (le_antisymm harea (by positivity))
  apply checkInkDensity_fail
  rcases hzero with h | h
  · left
    rw [h]
    norm_num [jsTrunc]
  · right
    rw [h]
    norm_num [jsTrunc]

/-- Witness for the amended C7: a zero-width box is a zero-area window and
grades to density 0. -/
theorem checkInkDensity_zero_on_nonpositive_area_witness :
    (0:ℚ) ≤ zeroBox.w ∧ (0:ℚ) ≤ zeroBox.h ∧
    zeroBox.w / 100 * 5 * (6/10) * (zeroBox.h / 100 * 5 * (6/10)) ≤ 0 ∧
    checkInkDensity white5 zeroBox 5 5 = 0 := by
  refine ⟨by norm_num [zeroBox], by norm_num [zeroBox], by norm_num [zeroBox], ?_⟩
  exact checkInkDensity_zero_on_nonpositive_area white5 zeroBox 5 5
    (by norm_num [zeroBox]) (by norm_num [zeroBox]) (by norm_num) (by norm_num)
    (by norm_num [zeroBox])

theorem checkInkDensity_white5_full : checkInkDensity white5 boxQ1A 5 5 = 0 := by
  have key := checkInkDensity_eval white5 boxQ1A 5 5 1 1 3 3
    (by norm_num [jsTrunc, boxQ1A]) (by norm_num [jsTrunc, boxQ1A])
    (by norm_num [jsTrunc, boxQ1A]) (by norm_num [jsTrunc, boxQ1A])
    (by norm_num) (by norm_num) (by norm_num) (by norm_num)
  rw [key, specDarkCount_eq_N]
  have hc : specDarkCountN white5 1 1 (3:ℤ).natAbs (3:ℤ).natAbs = 0 := by decide
  rw [hc]
  norm_num

theorem checkInkDensity_black5_full (b : BoxCoordinate)
    (hx : b.x = 0) (hy : b.y = 0) (hw : b.w = 100) (hh : b.h = 100) :
    checkInkDensity black5 b 5 5 = 1 := by
  have key := checkInkDensity_eval black5 b 5 5 1 1 3 3
    (by norm_num [jsTrunc, hx, hw]) (by norm_num [jsTrunc, hy, hh])
    (by norm_num [jsTrunc, hw]) (by norm_num [jsTrunc, hh])
    (by norm_num) (by norm_num) (by norm_num) (by norm_num)
  rw [key, specDarkCount_eq_N]
  have hc : specDarkCountN black5 1 1 (3:ℤ).natAbs (3:ℤ).natAbs = 9 := by decide
  rw [hc, hw, hh]
  norm_num

/-- Witness for C2: a white raster and a full-sheet box; the density 0 is in
`[0,1]`. -/
theorem checkInkDensity_in_unit_interval_witness :
    (0:ℚ) ≤ boxQ1A.w ∧ (0:ℚ) ≤ boxQ1A.h ∧ (0:ℚ) ≤ (5:ℚ) ∧
    0 ≤ checkInkDensity white5 boxQ1A 5 5 ∧ checkInkDensity white5 boxQ1A 5 5 ≤ 1 := by
  refine ⟨by norm_num [boxQ1A], by norm_num [boxQ1A], by norm_num, ?_, ?_⟩
  · exact (checkInkDensity_in_unit_interval white5 boxQ1A 5 5
      (by norm_num [boxQ1A]) (by norm_num [boxQ1A]) (by norm_num) (by norm_num)).1
  · exact (checkInkDensity_in_unit_interval white5 boxQ1A 5 5
      (by norm_num [boxQ1A]) (by norm_num [boxQ1A]) (by norm_num) (by norm_num)).2

/-- C1: the per-question resolution of `handleStudentUpload`.  A box counts
as marked exactly when its density strictly exceeds `0.08` — the filter in
the statement is that criterion.  No marked box yields `(none, false)`
(empty student answer, no ambiguity flag); exactly one marked box yields its
label with no flag; two or more yield `(none, true)` (empty answer, flagged
ambiguous).  The first component models the source's `studentAns`
(`none` = empty/null), the second its `isWarning`/ambiguity flag. -/
theorem resolveQuestion_threshold_cases (img : Image) (boxes : List BoxCoordinate)
    (cw ch : ℚ) (q : ℕ) :
    ((boxes.filter fun b =>
        decide (b.questionNumber = q ∧ (8/100 : ℚ) < checkInkDensity img b cw ch)) = []
      → resolveQuestion img boxes cw ch q = (none, false)) ∧
    (∀ b, (boxes.filter fun b2 =>
        decide (b2.questionNumber = q ∧ (8/100 : ℚ) < checkInkDensity img b2 cw ch)) = [b]
      → resolveQuestion img boxes cw ch q = (some b.optionLabel, false)) ∧
    (2 ≤ (boxes.filter fun b =>
        decide (b.questionNumber = q ∧ (8/100 : ℚ) < checkInkDensity img b cw ch)).length
      → resolveQuestion img boxes cw ch q = (none, true)) := by
  refine ⟨?_, ?_, ?_⟩
  · intro h
    rw [resolveQuestion, marksFor, h]
    rfl
  · intro b h
    rw [resolveQuestion, marksFor, h]
    rfl
  · intro h
    rw [resolveQuestion, marksFor]
    cases hF : boxes.filter fun b =>
        decide (b.questionNumber = q ∧ (8/100 : ℚ) < checkInkDensity img b cw ch) with
    | nil => rw [hF] at h; simp at h
    | cons a t =>
      cases t with
      | nil => rw [hF] at h; simp at h
      | cons a2 t2 =>
        simp only [List.map_cons, resolveMarks]
        simp

/-- Witness for C1: on a white sheet no box is marked and the verdict is
`(none, false)`; on a black sheet with one box the verdict is its label; on
a black sheet with two boxes of the same question the verdict is
`(none, true)`. -/
theorem resolveQuestion_threshold_cases_witness :
    (([boxQ1A].filter fun b =>
        decide (b.questionNumber = 1 ∧ (8/100 : ℚ) < checkInkDensity white5 b 5 5)) = []
      ∧ resolveQuestion white5 [boxQ1A] 5 5 1 = (none, false)) ∧
    (([boxQ1A].filter fun b2 =>
        decide (b2.questionNumber = 1 ∧ (8/100 : ℚ) < checkInkDensity black5 b2 5 5)) = [boxQ1A]
      ∧ resolveQuestion black5 [boxQ1A] 5 5 1 = (some boxQ1A.optionLabel, false)) ∧
    (2 ≤ ([boxQ1A, boxQ1B].filter fun b =>
        decide (b.questionNumber = 1 ∧ (8/100 : ℚ) < checkInkDensity black5 b 5 5)).length
      ∧ resolveQuestion black5 [boxQ1A, boxQ1B] 5 5 1 = (none, true)) := by
  have d2 := checkInkDensity_black5_full boxQ1A rfl rfl rfl rfl
  have d3 := checkInkDensity_black5_full boxQ1B rfl rfl rfl rfl
  have hf1 : ([boxQ1A].filter fun b =>
      decide (b.questionNumber = 1 ∧ (8/100 : ℚ) < checkInkDensity white5 b 5 5)) = [] := by
    simp only [List.filter_cons, List.filter_nil, checkInkDensity_white5_full]
    norm_num [boxQ1A]
  have hf2 : ([boxQ1A].filter fun b2 =>
      decide (b2.questionNumber = 1 ∧ (8/100 : ℚ) < checkInkDensity black5 b2 5 5)) = [boxQ1A] := by
    simp only [List.filter_cons, List.filter_nil, d2]
    norm_num [boxQ1A]
  have hf3 : 2 ≤ ([boxQ1A, boxQ1B].filter fun b =>
      decide (b.questionNumber = 1 ∧ (8/100 : ℚ) < checkInkDensity black5 b 5 5)).length := by
    simp only [List.filter_cons, List.filter_nil, d2, d3]
    norm_num [boxQ1A, boxQ1B]
  exact ⟨⟨hf1, (resolveQuestion_threshold_cases white5 [boxQ1A] 5 5 1).1 hf1⟩,
    ⟨hf2, (resolveQuestion_threshold_cases black5 [boxQ1A] 5 5 1).2.1 boxQ1A hf2⟩,
    ⟨hf3, (resolveQuestion_threshold_cases black5 [boxQ1A, boxQ1B] 5 5 1).2.2 hf3⟩⟩

theorem gradeDetails_map_question (img : Image) (boxes : List BoxCoordinate)
    (ca : List (ℕ × String)) (cw ch : ℚ) :
    ((gradeDetails img boxes ca cw ch).map fun d => d.question) = ca.map Prod.fst := by
  simp [gradeDetails]

theorem mem_gradeDetails_isCorrect (img : Image) (boxes : List BoxCoordinate)
    (ca : List (ℕ × String)) (cw ch : ℚ) (d : Detail)
    (hd : d ∈ gradeDetails img boxes ca cw ch) :
    d.isCorrect = decide (d.studentAnswer = some d.correctAnswer) := by
  rw [gradeDetails, List.mem_map] at hd
  obtain ⟨qc, _, rfl⟩ := hd
  rfl

/-- C3: the Scorer produces one detail record per `correctAnswers` entry
(the detail questions are exactly the keys, in order, so an unkeyed question
appears in no detail record and contributes to neither score nor total);
`score` counts the records whose `studentAnswer` equals the mapped correct
label, and `total` is the number of records produced. -/
theorem gradeSheet_score_and_total (studentId : String) (img : Image)
    (boxes : List BoxCoordinate) (ca : List (ℕ × String)) (cw ch : ℚ) (ts : ℕ) :
    ((gradeSheet studentId img boxes ca cw ch ts).details.map fun d => d.question)
        = ca.map Prod.fst ∧
    (gradeSheet studentId img boxes ca cw ch ts).score
        = ((gradeSheet studentId img boxes ca cw ch ts).details.filter fun d =>
            decide (d.studentAnswer = some d.correctAnswer)).length ∧
    (gradeSheet studentId img boxes ca cw ch ts).total
        = (gradeSheet studentId img boxes ca cw ch ts).details.length := by
  refine ⟨gradeDetails_map_question img boxes ca cw ch, ?_, rfl⟩
  show ((gradeDetails img boxes ca cw ch).filter fun d => d.isCorrect).length = _
  have hcongr : ((gradeDetails img boxes ca cw ch).filter fun d => d.isCorrect)
      = ((gradeDetails img boxes ca cw ch).filter fun d =>
          decide (d.studentAnswer = some d.correctAnswer)) := by
    apply List.filter_congr
    intro d hd
    exact mem_gradeDetails_isCorrect img boxes ca cw ch d hd
  rw [hcongr]
  rfl

/-- C9: every grading report satisfies `score ≤ total` (`score ≥ 0` holds by
the `ℕ` typing), and `total` equals the number of `correctAnswers` entries —
hence it is the same for every sheet graded against the same catalog. -/
theorem gradeSheet_score_le_total (studentId : String) (img : Image)
    (boxes : List BoxCoordinate) (ca : List (ℕ × String)) (cw ch : ℚ) (ts : ℕ) :
    (gradeSheet studentId img boxes ca cw ch ts).score
        ≤ (gradeSheet studentId img boxes ca cw ch ts).total ∧
    (gradeSheet studentId img boxes ca cw ch ts).total = ca.length := by
  constructor
  · exact List.length_filter_le _ _
  · show (gradeDetails img boxes ca cw ch).length = ca.length
    rw [gradeDetails]
    exact List.length_map ca _

theorem resolveQuestion_of_no_question_boxes (img : Image) (boxes : List BoxCoordinate)
    (cw ch : ℚ) (q : ℕ) (h : ∀ b ∈ boxes, b.questionNumber ≠ q) :
    resolveQuestion img boxes cw ch q = (none, false) := by
  have hf : (boxes.filter fun b =>
      decide (b.questionNumber = q ∧ (8/100 : ℚ) < checkInkDensity img b cw ch)) = [] := by
    rw [List.filter_eq_nil_iff]
    intro b hb
    simp [h b hb]
  rw [resolveQuestion, marksFor, hf]
  rfl

/-- C10: a question keyed in `correctAnswers` but having no Region in the
catalog still yields a detail record — empty (null) student answer, not
correct, not flagged — and is counted in `total`: the key alone decides
which questions are graded. -/
theorem gradeDetails_keyed_question_without_regions (img : Image)
    (boxes : List BoxCoordinate) (ca : List (ℕ × String)) (cw ch : ℚ) (q : ℕ) (c : String)
    (hqc : (q, c) ∈ ca) (hnob : ∀ b ∈ boxes, b.questionNumber ≠ q) :
    (⟨q, none, c, false, false⟩ : Detail) ∈ gradeDetails img boxes ca cw ch ∧
    ∀ (studentId : String) (ts : ℕ),
      (gradeSheet studentId img boxes ca cw ch ts).total = ca.length := by
  constructor
  · rw [gradeDetails]
    refine List.mem_map.mpr ⟨(q, c), hqc, ?_⟩
    rw [resolveQuestion_of_no_question_boxes img boxes cw ch q hnob]
    simp
  · intro studentId ts
    show (gradeDetails img boxes ca cw ch).length = ca.length
    rw [gradeDetails]
    exact List.length_map ca _

/-- Witness for C10: one keyed question, an empty region catalog. -/
theorem gradeDetails_keyed_question_without_regions_witness :
    ((1, "A") ∈ [((1:ℕ), "A")]) ∧
    (∀ b ∈ ([] : List BoxCoordinate), b.questionNumber ≠ 1) ∧
    (⟨1, none, "A", false, false⟩ : Detail) ∈ gradeDetails white5 [] [(1, "A")] 5 5 ∧
    (gradeSheet "STU-1000" white5 [] [(1, "A")] 5 5 0).total = 1 := by
  have h1 : (1, "A") ∈ [((1:ℕ), "A")] := by simp
  have h2 : ∀ b ∈ ([] : List BoxCoordinate), b.questionNumber ≠ 1 := by simp
  have h := gradeDetails_keyed_question_without_regions white5 [] [(1, "A")] 5 5 1 "A" h1 h2
  exact ⟨h1, h2, h.1, h.2 "STU-1000" 0⟩

theorem resolveMarks_perm (m1 m2 : List String) (p : m1.Perm m2) :
    resolveMarks m1 = resolveMarks m2 := by
  have hlen := p.length_eq
  cases m1 with
  | nil =>
    rw [p.nil_eq]
  | cons a t =>
    cases t with
    | nil =>
      have h2 : [a] = m2 := List.singleton_perm.mp p
      rw [← h2]
    | cons a2 t2 =>
      cases m2 with
      | nil => simp at hlen
      | cons x s =>
        cases s with
        | nil => simp at hlen
        | cons y s2 =>
          simp only [resolveMarks, List.length_cons]
          have g1 : (1 : ℕ) < t2.length + 1 + 1 := by omega
          have g2 : (1 : ℕ) < s2.length + 1 + 1 := by omega
          simp [g1, g2]

theorem resolveQuestion_perm (img : Image) (boxes1 boxes2 : List BoxCoordinate)
    (cw ch : ℚ) (q : ℕ) (p : boxes1.Perm boxes2) :
    resolveQuestion img boxes1 cw ch q = resolveQuestion img boxes2 cw ch q := by
  rw [resolveQuestion, resolveQuestion]
  apply resolveMarks_perm
  rw [marksFor, marksFor]
  exact (p.filter _).map _

/-- C8: the emitted detail list is in ascending `questionNumber` order —
its questions are the `correctAnswers` keys, which JavaScript enumerates in
ascending numeric order for a `Record<number,·>` (taken here as the
hypothesis on the entries list) — and the list does not depend on the order
in which Regions appear in the catalog. -/
theorem gradeDetails_sorted_and_region_order_independent (img : Image)
    (boxes : List BoxCoordinate) (ca : List (ℕ × String)) (cw ch : ℚ)
    (hsorted : (ca.map Prod.fst).Sorted (· < ·)) :
    ((gradeDetails img boxes ca cw ch).map fun d => d.question).Sorted (· < ·) ∧
    ∀ boxes2, boxes2.Perm boxes →
      gradeDetails img boxes2 ca cw ch = gradeDetails img boxes ca cw ch := by
  constructor
  · rw [gradeDetails_map_question]
    exact hsorted
  · intro boxes2 hp
    rw [gradeDetails, gradeDetails]
    apply List.map_congr_left
    intro qc _
    rw [resolveQuestion_perm img boxes2 boxes cw ch qc.1 hp]

/-- Witness for C8: a two-question key in ascending order; swapping the two
catalog boxes leaves the detail list unchanged, and the emitted questions
are sorted. -/
theorem gradeDetails_sorted_and_region_order_independent_witness :
    (([((1:ℕ), "A"), (2, "B")].map Prod.fst).Sorted (· < ·)) ∧
    ([boxQ1B, boxQ1A].Perm [boxQ1A, boxQ1B]) ∧
    (((gradeDetails black5 [boxQ1A, boxQ1B] [((1:ℕ), "A"), (2, "B")] 5 5).map
        fun d => d.question).Sorted (· < ·)) ∧
    gradeDetails black5 [boxQ1B, boxQ1A] [((1:ℕ), "A"), (2, "B")] 5 5
      = gradeDetails black5 [boxQ1A, boxQ1B] [((1:ℕ), "A"), (2, "B")] 5 5 := by
  have hs : (([((1:ℕ), "A"), (2, "B")].map Prod.fst).Sorted (· < ·)) := by
    simp [List.sorted_cons]
  have hp : [boxQ1B, boxQ1A].Perm [boxQ1A, boxQ1B] := List.Perm.swap boxQ1A boxQ1B []
  have h := gradeDetails_sorted_and_region_order_independent black5 [boxQ1A, boxQ1B]
    [((1:ℕ), "A"), (2, "B")] 5 5 hs
  exact ⟨hs, hp, h.1, h.2 [boxQ1B, boxQ1A] hp⟩

/-- Counterexample for C4: a detail record can carry a null (absent) student
answer, not an empty string.  Grading an unkeyed-region-free sheet (no
boxes) against the key `{1: "A"}` produces exactly one detail record whose
`studentAnswer` is `none` — the model of the source's `null` (the source
computes `marks.length === 1 ? marks[0].label : null`, and its
`GradingResult.details` type is `studentAnswer: string | null`).  So the
claim that `studentAnswer` is never a null/absent marker is false. -/
theorem gradeDetails_studentAnswer_can_be_null :
    gradeDetails white5 [] [(1, "A")] 5 5
      = [⟨1, none, "A", false, false⟩] := by
  rfl

/-- C4 (amended): in every emitted detail record, `studentAnswer` is either
the null marker (`none`, emitted whenever the question does not have exactly
one marked option) or the label of one of the question's catalog boxes; the
empty string is never used as the empty-answer encoding. -/
theorem gradeDetails_studentAnswer_null_or_label (img : Image)
    (boxes : List BoxCoordinate) (ca : List (ℕ × String)) (cw ch : ℚ) :
    ∀ d ∈ gradeDetails img boxes ca cw ch,
      d.studentAnswer = none ∨
      ∃ b, b ∈ boxes ∧ b.questionNumber = d.question ∧
        d.studentAnswer = some b.optionLabel := by
  intro d hd
  rw [gradeDetails, List.mem_map] at hd
  obtain ⟨qc, _, rfl⟩ := hd
  show (resolveQuestion img boxes cw ch qc.1).1 = none ∨ _
  rw [resolveQuestion]
  cases hM : marksFor img boxes cw ch qc.1 with
  | nil => left; rfl
  | cons l t =>
    cases t with
    | cons l2 t2 => left; rfl
    | nil =>
      right
      have hl : l ∈ marksFor img boxes cw ch qc.1 := by
        rw [hM]
        simp
      rw [marksFor, List.mem_map] at hl
      obtain ⟨b, hbf, rfl⟩ := hl
      rw [List.mem_filter] at hbf
      obtain ⟨hbx, hbp⟩ := hbf
      have hq : b.questionNumber = qc.1 := (of_decide_eq_true hbp).1
      exact ⟨b, hbx, hq, rfl⟩

/-- Witness for the amended C4: one fully marked box yields its label. -/
theorem gradeDetails_studentAnswer_null_or_label_witness :
    (⟨1, some "A", "A", true, false⟩ : Detail)
        ∈ gradeDetails black5 [boxQ1A] [(1, "A")] 5 5 ∧
    ((⟨1, some "A", "A", true, false⟩ : Detail).studentAnswer = none ∨
      ∃ b, b ∈ [boxQ1A] ∧ b.questionNumber = (1:ℕ) ∧
        (⟨1, some "A", "A", true, false⟩ : Detail).studentAnswer = some b.optionLabel) := by
  have d2 := checkInkDensity_black5_full boxQ1A rfl rfl rfl rfl
  have hf : ([boxQ1A].filter fun b =>
      decide (b.questionNumber = 1 ∧ (8/100 : ℚ) < checkInkDensity black5 b 5 5)) = [boxQ1A] := by
    simp only [List.filter_cons, List.filter_nil, d2]
    norm_num [boxQ1A]
  have hmem : (⟨1, some "A", "A", true, false⟩ : Detail)
      ∈ gradeDetails black5 [boxQ1A] [(1, "A")] 5 5 := by
    rw [gradeDetails]
    refine List.mem_map.mpr ⟨(1, "A"), by simp, ?_⟩
    rw [resolveQuestion, marksFor, hf]
    rfl
  exact ⟨hmem, gradeDetails_studentAnswer_null_or_label black5 [boxQ1A] [(1, "A")] 5 5 _ hmem⟩
